import Mathlib

/-
Verification development for the cute-sway-recorder repository.

The definitions below are a shallow embedding of the Python sources under
src/cute_sway_recorder/: pure helpers become Lean functions, the Qt
application object becomes an explicit state record, Python exceptions
become `Except` errors, and external observable actions (dialogs, window
manipulation, process spawning) become an explicit effect list.  External
inputs (slurp output, dialog results, filesystem answers) are given as
parameters to the transition functions.
-/

/-- Python exceptions raised by the embedded code paths. -/
inductive PyError where
  | valueError
  | attributeError
deriving DecidableEq

/-- Observable external actions of the application layer, in order of
occurrence: confirmation dialogs, error popups, window and tray changes,
button toggles, directory creation and process spawning. -/
inductive Effect where
  | askOverride (path : String)
  | showNoSelectionError
  | hideWindow
  | showTrayIcon
  | setButtonsRecording
  | mkdirParents (path : String)
  | spawn (argv : List String)
  | sendSigint (argv : List String)
deriving DecidableEq

/-- Python truthiness of an optional string: `None` and the empty string are
falsy, every other string is truthy. -/
def truthyStr : Option String → Bool
  | none => false
  | some s => decide (s ≠ "")

/-- Python `a or b` on optional strings: keeps `a` when truthy, else `b`. -/
def pyOr (a b : Option String) : Option String :=
  if truthyStr a then a else b

/-- Python list indexing `l[i]`: negative indices wrap once from the end;
out-of-range access yields `none` (an `IndexError` in Python). -/
def pyIndex (l : List String) (i : Int) : Option String :=
  if 0 ≤ i then l[i.toNat]?
  else
    let j : Int := i + l.length
    if 0 ≤ j then l[j.toNat]? else none

/-! ## common.py: `PATTERN_SELECTED_AREA` and `SelectedArea`

`PATTERN_SELECTED_AREA = re.compile(r"\d+,\d+ \d+x\d+")` is used through
`re.match`, which anchors at the start of the string only.  The regex has no
backtracking behaviour on this pattern because every `\d+` is followed by a
non-digit literal, so greedy digit consumption is exact. -/

/-- Consume `\d+` at the head of the character list (at least one digit,
then all following digits); fails when the head is not a digit. -/
def dropDigits1 : List Char → Option (List Char)
  | [] => none
  | c :: cs => if c.isDigit then some (cs.dropWhile Char.isDigit) else none

/-- Consume one expected literal character at the head of the list. -/
def dropLit (c : Char) : List Char → Option (List Char)
  | [] => none
  | d :: cs => if d = c then some cs else none

/-- Run the pattern `\d+,\d+ \d+x\d+` at the head of the character list,
returning the unconsumed remainder on success. -/
def reMatchArea (l : List Char) : Option (List Char) :=
  (dropDigits1 l).bind fun r1 =>
  (dropLit ',' r1).bind fun r2 =>
  (dropDigits1 r2).bind fun r3 =>
  (dropLit ' ' r3).bind fun r4 =>
  (dropDigits1 r4).bind fun r5 =>
  (dropLit 'x' r5).bind fun r6 =>
  dropDigits1 r6

/-- `re.match(PATTERN_SELECTED_AREA, s)` truthiness: the pattern matches at
the start of `s`, trailing characters permitted. -/
def pyMatchSelectedArea (s : String) : Bool :=
  (reMatchArea s.data).isSome

/-- Written from the wording of the specification, for comparison with the
code: the whole string matches the pattern, with nothing left over. -/
def fullyMatchesSelectedArea (s : String) : Bool :=
  match reMatchArea s.data with
  | some [] => true
  | _ => false

/-- `SelectedArea.__init__`: accepts the string when `re.match` succeeds,
raises `ValueError` otherwise. -/
def SelectedArea.ofString (s : String) : Except PyError String :=
  if pyMatchSelectedArea s then Except.ok s else Except.error PyError.valueError

/-! ## main.py: `start_recording` -/

/-- `start_recording(file_dst, include_audio, area, screen)` from
src/cute_sway_recorder/main.py.  Raises `ValueError` when both `area` and
`screen` are truthy; otherwise creates the destination parent directory
(when a destination was given) and builds the `wf-recorder` argument
vector.  Returns the emitted effects and the spawned argv. -/
def start_recording (cwd : String) (file_dst : Option String)
    (include_audio : Bool) (area : Option String) (screen : Option String) :
    Except PyError (List Effect × List String) :=
  if truthyStr area && truthyStr screen then
    Except.error PyError.valueError
  else
    let dst := file_dst.getD cwd
    let effs : List Effect :=
      match file_dst with
      | none => []
      | some d => [Effect.mkdirParents d]
    let params := ["wf-recorder", "-f", dst]
    let params := if include_audio then params ++ ["--audio"] else params
    let params := if truthyStr area then params ++ ["--geometry", area.getD ""] else params
    let params := if truthyStr screen then params ++ ["--output", screen.getD ""] else params
    Except.ok (effs, params)

/-! ## main.py: `CuteRecorderQtApplication`

The mutable attributes of the application object, together with the enabled
state of its buttons and the recording-status label. -/

/-- State of the `CuteRecorderQtApplication` object. -/
structure AppState where
  selected_area : Option String
  selected_screen : Option String
  recorder_proc : Option (List String)
  file_dst : String
  is_whole_screen_selected : Bool
  checkbox_use_audio : Bool
  btn_stop_enabled : Bool
  other_btns_enabled : Bool
  lbl_is_recording : String
deriving DecidableEq

/-- The state established by `CuteRecorderQtApplication.__init__`: nothing
selected, no recorder process, stop button disabled, not recording.  The
randomly generated default destination is a parameter. -/
def initState (dst : String) : AppState :=
  { selected_area := none
  , selected_screen := none
  , recorder_proc := none
  , file_dst := dst
  , is_whole_screen_selected := false
  , checkbox_use_audio := false
  , btn_stop_enabled := false
  , other_btns_enabled := true
  , lbl_is_recording := "Not recording" }

/-- `btn_onclick_select_area`: the slurp result (`none` when cancelled) is
kept if truthy, otherwise the previous area survives; the screen selection
and the whole-screen flag are always cleared. -/
def btn_onclick_select_area (pick : Option String) (s : AppState) : AppState :=
  { s with selected_area := pyOr pick s.selected_area
         , selected_screen := none
         , is_whole_screen_selected := false }

/-- `btn_onclick_select_whole_screen`: with more than one output a dialog
picks the screen (`-1` means the dialog was dismissed and nothing changes);
with a single output the screen field is left untouched.  In every
non-cancelled run the area is cleared and the whole-screen flag is set. -/
def btn_onclick_select_whole_screen (screens : List String) (dialogIdx : Int)
    (s : AppState) : AppState :=
  if 1 < screens.length then
    if dialogIdx = -1 then s
    else
      match pyIndex screens dialogIdx with
      | none => s
      | some scr =>
        { s with selected_screen := some scr
               , selected_area := none
               , is_whole_screen_selected := true }
  else
    { s with selected_area := none
           , is_whole_screen_selected := true }

/-- Result type of the two recording handlers: an exception aborts the
handler but keeps the mutations and effects carried out so far. -/
def HandlerResult := Except (PyError × AppState × List Effect) (AppState × List Effect)

/-- The effect trace of a handler run, successful or aborted. -/
def handlerEffects : HandlerResult → List Effect
  | Except.error (_, _, effs) => effs
  | Except.ok (_, effs) => effs

/-- Prepend already-emitted effects to a handler continuation. -/
def prependEffects (pre : List Effect) : HandlerResult → HandlerResult
  | Except.ok (s, effs) => Except.ok (s, pre ++ effs)
  | Except.error (e, s, effs) => Except.error (e, s, pre ++ effs)

/-- The part of `btn_onclick_start_recording` after the overwrite check:
reject when neither selection field is set (`is None` tests), hide the
window and show the tray icon for whole-screen recordings, flip the button
states, then call `start_recording` and store the spawned process. -/
def startAfterConfirm (cwd : String) (s : AppState) : HandlerResult :=
  if s.selected_area = none ∧ s.selected_screen = none then
    Except.ok (s, [Effect.showNoSelectionError])
  else
    let effs1 := if s.is_whole_screen_selected then [Effect.hideWindow, Effect.showTrayIcon] else []
    let s1 := { s with btn_stop_enabled := true, other_btns_enabled := false }
    let effs2 := effs1 ++ [Effect.setButtonsRecording]
    match start_recording cwd (some s1.file_dst) s1.checkbox_use_audio
        s1.selected_area s1.selected_screen with
    | Except.error e => Except.error (e, s1, effs2)
    | Except.ok (mkEffs, argv) =>
        Except.ok ({ s1 with recorder_proc := some argv, lbl_is_recording := "RECORDING" },
          effs2 ++ mkEffs ++ [Effect.spawn argv])

/-- `btn_onclick_start_recording`: when the destination exists, ask for
overwrite confirmation first; a declined confirmation resets the status
label and stops.  Otherwise continue with `startAfterConfirm`.
`destExists` and `confirmOverride` are the filesystem and dialog answers. -/
def btn_onclick_start_recording (destExists confirmOverride : Bool)
    (cwd : String) (s : AppState) : HandlerResult :=
  if destExists then
    if confirmOverride then
      prependEffects [Effect.askOverride s.file_dst] (startAfterConfirm cwd s)
    else
      Except.ok ({ s with lbl_is_recording := "Not recording" },
        [Effect.askOverride s.file_dst])
  else
    startAfterConfirm cwd s

/-- `btn_onclick_stop_recording`: flips the button states, then calls
`send_signal(SIGINT)` on the stored process object.  When no process was
ever stored (`recorder_proc is None`) this access raises
`AttributeError`. -/
def btn_onclick_stop_recording (s : AppState) : HandlerResult :=
  let s1 := { s with btn_stop_enabled := false, other_btns_enabled := true }
  match s1.recorder_proc with
  | none => Except.error (PyError.attributeError, s1, [])
  | some argv =>
      Except.ok ({ s1 with lbl_is_recording := "Done recording" },
        [Effect.sendSigint argv])

/-! ## groupbox_selection.py: `SelectionGroupbox` -/

/-- The selection fields of `SelectionGroupbox`. -/
structure GbState where
  selected_area : Option String
  selected_screen : Option String
deriving DecidableEq

/-- `SelectionGroupbox.__init__`: nothing selected. -/
def GbState.initial : GbState := { selected_area := none, selected_screen := none }

/-- `SelectionGroupbox.btn_onclick_select_area`: same `or` logic as the
application handler, and the screen selection is always cleared. -/
def gb_btn_onclick_select_area (pick : Option String) (g : GbState) : GbState :=
  { selected_area := pyOr pick g.selected_area, selected_screen := none }

/-- `SelectionGroupbox.btn_onclick_select_whole_screen`: multi-output runs
go through the dialog (a `-1` result returns early); the single-output
branch only updates the label.  Every non-cancelled run clears the area. -/
def gb_btn_onclick_select_whole_screen (screens : List String) (dialogIdx : Int)
    (g : GbState) : GbState :=
  if 1 < screens.length then
    if dialogIdx = -1 then g
    else
      match pyIndex screens dialogIdx with
      | none => g
      | some scr => { selected_area := none, selected_screen := some scr }
  else
    { g with selected_area := none }

/-! ## config_area.py: `Config` and `ConfigArea.create_config` -/

/-- The `Config` dataclass. -/
structure Config where
  selection : String
  file_dest : String
  include_audio : Bool
deriving DecidableEq

/-- `ConfigArea.create_config`: picks the truthy area first, else the
truthy screen; with neither, shows the no-selection popup and returns
`None`. -/
def create_config (selected_area selected_screen : Option String)
    (file_dest : String) (include_audio : Bool) : Option Config × List Effect :=
  if truthyStr selected_area then
    (some { selection := selected_area.getD ""
          , file_dest := file_dest
          , include_audio := include_audio }, [])
  else if truthyStr selected_screen then
    (some { selection := selected_screen.getD ""
          , file_dest := file_dest
          , include_audio := include_audio }, [])
  else
    (none, [Effect.showNoSelectionError])

/-! ## config_file.py: `ConfigFile.parse` -/

/-- ASCII lowering of one character, as Python `str.lower` acts on the
ASCII option names and values of a defaults file. -/
def pyLowerChar (c : Char) : Char :=
  if 'A' ≤ c ∧ c ≤ 'Z' then Char.ofNat (c.toNat + 32) else c

/-- Python `str.lower` on ASCII text (`configparser.optionxform` and the
`getboolean` state lookup both lower their input). -/
def pyLower (s : String) : String :=
  String.mk (s.data.map pyLowerChar)

/-- `configparser.getboolean` value conversion: the lowered value must be
one of the eight recognised boolean state strings, else `ValueError`. -/
def pyBooleanState (s : String) : Option Bool :=
  let t := pyLower s
  if t = "1" ∨ t = "yes" ∨ t = "true" ∨ t = "on" then some true
  else if t = "0" ∨ t = "no" ∨ t = "false" ∨ t = "off" then some false
  else none

/-- Digit run of a base-10 Python integer literal after its first digit:
further digits, with single underscores allowed between digits. -/
def pyDigitsRest (acc : Nat) : List Char → Option Nat
  | [] => some acc
  | c :: cs =>
    if c.isDigit then pyDigitsRest (10 * acc + (c.toNat - 48)) cs
    else if c = '_' then
      match cs with
      | [] => none
      | d :: ds => if d.isDigit then pyDigitsRest (10 * acc + (d.toNat - 48)) ds else none
    else none

/-- Unsigned part of `int(s)`: a digit followed by `pyDigitsRest`. -/
def pyUnsignedInt : List Char → Option Nat
  | [] => none
  | c :: cs => if c.isDigit then pyDigitsRest (c.toNat - 48) cs else none

/-- Python `int(s)` in base 10 (used by `configparser.getint`): surrounding
whitespace stripped, an optional sign, then digits with optional single
underscores between them; anything else raises `ValueError`. -/
def pyInt (s : String) : Option Int :=
  let l := s.data.dropWhile Char.isWhitespace
  let l := (l.reverse.dropWhile Char.isWhitespace).reverse
  match l with
  | '+' :: rest => (pyUnsignedInt rest).map Int.ofNat
  | '-' :: rest => (pyUnsignedInt rest).map (fun n => -(n : Int))
  | rest => (pyUnsignedInt rest).map Int.ofNat

/-- The raw `DEFAULT` section of the defaults file, as `configparser`
stores it after reading: a list of (option name, raw value) pairs with the
option names already lowercased by `optionxform` and pairwise distinct.
Values are uninterpolated; interpolation happens on every `get`. -/
def RawConfig := List (String × String)

/-- Raw (uninterpolated) lookup of an option, as `configparser` reads its
internal `DEFAULT` dictionary. -/
def rawGet (raw : RawConfig) (key : String) : Option String :=
  (List.find? (fun kv => kv.1 == key) raw).map Prod.snd

/-- Errors of `configparser.BasicInterpolation`: none of them is a
`ValueError`, so none is caught by the per-field handlers of
`ConfigFile.parse`. -/
inductive InterpError where
  | syntaxError
  | missingOption
  | depthError
deriving DecidableEq

/-- `BasicInterpolation._interpolate_some`: scans the value left to right;
`%%` is a literal percent, `%(key)s` splices the referenced raw value
(recursively interpolated when it contains a percent, with the nesting
depth capped at `MAX_INTERPOLATION_DEPTH = 10`), and any other use of `%`
raises `InterpolationSyntaxError`; a reference to an absent option raises
`InterpolationMissingOptionError`. -/
def interpGo (raw : RawConfig) (depth : Nat) (rest : List Char) :
    Except InterpError (List Char) :=
  match rest with
  | [] => Except.ok []
  | '%' :: tail =>
    match tail with
    | '%' :: t2 => (interpGo raw depth t2).map (fun acc => '%' :: acc)
    | '(' :: t2 =>
      let key := t2.takeWhile (fun c => decide (c ≠ ')'))
      if key ≠ [] ∧ (t2.drop key.length).take 2 = [')', 's'] then
        match rawGet raw (pyLower (String.mk key)) with
        | none => Except.error InterpError.missingOption
        | some v =>
          if v.data.contains '%' then
            if 10 < depth + 1 then Except.error InterpError.depthError
            else
              (interpGo raw (depth + 1) v.data).bind fun vint =>
              (interpGo raw depth ((t2.drop key.length).drop 2)).map fun acc =>
                vint ++ acc
          else
            (interpGo raw depth ((t2.drop key.length).drop 2)).map fun acc =>
              v.data ++ acc
      else Except.error InterpError.syntaxError
    | _ => Except.error InterpError.syntaxError
  | c :: tail => (interpGo raw depth tail).map (fun acc => c :: acc)
termination_by (10 - depth, rest.length)
decreasing_by
  all_goals first
    | (apply Prod.Lex.left
       omega)
    | (apply Prod.Lex.right
       simp only [List.length_cons, List.length_drop, List.length_take]
       omega)

/-- `BasicInterpolation.before_get`, applied by `parser.get` to every
present value: interpolation starts at depth 1. -/
def interpolateValue (raw : RawConfig) (v : String) : Except InterpError String :=
  (interpGo raw 1 v.data).map String.mk

/-- `parser.get` on the DEFAULT section with a fallback: the fallback applies only
when the option is absent; a present value is interpolated, and an
interpolation error propagates out of `get` (and out of `getboolean` and
`getint`, whose conversions run on the interpolated value). -/
def cpGet (raw : RawConfig) (key : String) : Except InterpError (Option String) :=
  match rawGet raw key with
  | none => Except.ok none
  | some v => (interpolateValue raw v).map some

/-- The `ConfigFile` dataclass with its built-in defaults. -/
structure ConfigFile where
  file_dest : Option String := none
  include_audio : Bool := false
  delay : Int := 0
  flags : String := ""
deriving DecidableEq

/-- `ConfigFile.parse` after the file has been read: the four fields are
read in the source order (flags, include_audio, delay, file_dest).  A
`ValueError` in one field's conversion (an unrecognised boolean, a
malformed or negative delay integer, a destination rejected by
`validate_file_dest`) is caught per field, leaving that field at its
default — but an interpolation error raised inside `get`, `getboolean` or
`getint` is not a `ValueError`, escapes the handlers and aborts the whole
load.  The filesystem checks of `validate_file_dest` are the oracle
`destOk`, and `expanduser().resolve()` is the oracle `resolveDest`. -/
def ConfigFile.parse (raw : RawConfig) (destOk : String → Bool)
    (resolveDest : String → String) : Except InterpError ConfigFile := do
  let cf : ConfigFile := {}
  let flagsOpt ← cpGet raw "flags"
  let cf := { cf with flags := flagsOpt.getD "" }
  let audioOpt ← cpGet raw "include_audio"
  let cf :=
    match audioOpt with
    | none => cf
    | some s =>
      match pyBooleanState s with
      | some b => { cf with include_audio := b }
      | none => cf
  let delayOpt ← cpGet raw "delay"
  let cf :=
    match delayOpt with
    | none => cf
    | some s =>
      match pyInt s with
      | some d => if d < 0 then cf else { cf with delay := d }
      | none => cf
  let destOpt ← cpGet raw "file_dest"
  let cf :=
    match destOpt with
    | none => cf
    | some s => if destOk s then { cf with file_dest := some (resolveDest s) } else cf
  return cf

/-! ## DelayScheduler (spec §4.4) -/

/-- Modelled from the spec: the DelayScheduler component of §4.4 has no
counterpart under src/; only the `delay` default in config_file.py refers
to it.  A countdown event is a tick carrying the decremented remaining
count, or the completion callback. -/
inductive TickEvent where
  | tick (remaining : Nat)
  | complete
deriving DecidableEq

/-- Modelled from the spec: a countdown started with `seconds` emits one
tick per second, each decrementing the remaining count and reporting it;
when the count reaches zero the completion callback fires once and the
scheduler terminates.  Callers with zero seconds skip the scheduler. -/
def schedulerRun : Nat → List TickEvent
  | 0 => []
  | Nat.succ n =>
    TickEvent.tick n :: (if n = 0 then [TickEvent.complete] else schedulerRun n)

/-! ## Selection operation sequences -/

/-- One user selection intent with its external inputs: the slurp result
for an area selection, or the output list and dialog result for a
whole-screen selection. -/
inductive SelOp where
  | area (pick : Option String)
  | screen (screens : List String) (idx : Int)

/-- Run one selection intent through the application handlers. -/
def SelOp.applyApp : SelOp → AppState → AppState
  | SelOp.area p, s => btn_onclick_select_area p s
  | SelOp.screen scrs i, s => btn_onclick_select_whole_screen scrs i s

/-- Run one selection intent through the groupbox handlers. -/
def SelOp.applyGb : SelOp → GbState → GbState
  | SelOp.area p, g => gb_btn_onclick_select_area p g
  | SelOp.screen scrs i, g => gb_btn_onclick_select_whole_screen scrs i g

/-- At most one of the two selection fields of the application is set. -/
def selExclusive (s : AppState) : Prop :=
  s.selected_area = none ∨ s.selected_screen = none

/-- At most one of the two selection fields of the groupbox is set. -/
def gbExclusive (g : GbState) : Prop :=
  g.selected_area = none ∨ g.selected_screen = none

/-- Every selection intent preserves the application exclusivity
invariant. -/
theorem applyApp_preserves_exclusive (op : SelOp) (s : AppState)
    (h : selExclusive s) : selExclusive (op.applyApp s) := by
  cases op with
  | area p =>
    right
    rfl
  | screen scrs i =>
    show selExclusive (btn_onclick_select_whole_screen scrs i s)
    unfold btn_onclick_select_whole_screen
    split
    · split
      · exact h
      · cases hp : pyIndex scrs i with
        | none => simp only [hp]; exact h
        | some scr => simp only [hp]; left; rfl
    · left; rfl

/-- Every selection intent preserves the groupbox exclusivity invariant. -/
theorem applyGb_preserves_exclusive (op : SelOp) (g : GbState)
    (h : gbExclusive g) : gbExclusive (op.applyGb g) := by
  cases op with
  | area p =>
    right
    rfl
  | screen scrs i =>
    show gbExclusive (gb_btn_onclick_select_whole_screen scrs i g)
    unfold gb_btn_onclick_select_whole_screen
    split
    · split
      · exact h
      · cases hp : pyIndex scrs i with
        | none => simp only [hp]; exact h
        | some scr => simp only [hp]; left; rfl
    · left; rfl

/-- The application invariant holds after any sequence of selection
intents from any state satisfying it. -/
theorem foldApp_exclusive (ops : List SelOp) (s : AppState) (h : selExclusive s) :
    selExclusive (ops.foldl (fun t op => op.applyApp t) s) := by
  induction ops generalizing s with
  | nil => exact h
  | cons op rest ih => exact ih _ (applyApp_preserves_exclusive op s h)

/-- The groupbox invariant holds after any sequence of selection intents
from any state satisfying it. -/
theorem foldGb_exclusive (ops : List SelOp) (g : GbState) (h : gbExclusive g) :
    gbExclusive (ops.foldl (fun t op => op.applyGb t) g) := by
  induction ops generalizing g with
  | nil => exact h
  | cons op rest ih => exact ih _ (applyGb_preserves_exclusive op g h)

/-! ## Theorems -/

/-- Claim C1: for every recording start, the spawned recorder command line
is exactly the base command, the output-file flag with the destination,
`--audio` iff audio is included, then the geometry flag with the area
string for an area target, or the output-name flag with the screen name
for a screen target, with nothing else added, dropped or reordered. -/
theorem C1_spawn_cmdline (cwd dst a scr : String) (audio : Bool)
    (ha : a ≠ "") (hs : scr ≠ "") :
    start_recording cwd (some dst) audio (some a) none =
      Except.ok ([Effect.mkdirParents dst],
        ["wf-recorder", "-f", dst] ++ (if audio then ["--audio"] else [])
          ++ ["--geometry", a])
    ∧ start_recording cwd (some dst) audio none (some scr) =
      Except.ok ([Effect.mkdirParents dst],
        ["wf-recorder", "-f", dst] ++ (if audio then ["--audio"] else [])
          ++ ["--output", scr]) := by
  constructor <;> (simp [start_recording, truthyStr, ha, hs]; cases audio <;> simp)

/-- Witness for C1 at the end-to-end scenario of the spec: area
`10,10 1920x1080`, destination `/tmp/out.mp4`, audio off. -/
theorem C1_spawn_cmdline_witness :
    start_recording "/" (some "/tmp/out.mp4") false (some "10,10 1920x1080") none =
      Except.ok ([Effect.mkdirParents "/tmp/out.mp4"],
        ["wf-recorder", "-f", "/tmp/out.mp4", "--geometry", "10,10 1920x1080"])
    ∧ start_recording "/" (some "/tmp/out.mp4") false none (some "eDP-1") =
      Except.ok ([Effect.mkdirParents "/tmp/out.mp4"],
        ["wf-recorder", "-f", "/tmp/out.mp4", "--output", "eDP-1"]) := by
  have h := C1_spawn_cmdline "/" "/tmp/out.mp4" "10,10 1920x1080" "eDP-1" false
    (by decide) (by decide)
  simpa using h

/-- A string fully matching the area pattern in particular matches it at
the start. -/
theorem fullyMatches_imp_pyMatch (s : String) :
    fullyMatchesSelectedArea s = true → pyMatchSelectedArea s = true := by
  unfold fullyMatchesSelectedArea pyMatchSelectedArea
  cases h : reMatchArea s.data with
  | none => simp
  | some l => cases l <;> simp

/-- Claim C4 counterexample: the claim says every string not matching
`<int>,<int> <int>x<int>` is rejected, but `re.match` only anchors at the
start, so `"0,0 1x1x"` — which does not match the pattern as a whole — is
accepted by `SelectedArea`. -/
theorem C4_counterexample :
    fullyMatchesSelectedArea "0,0 1x1x" = false
    ∧ SelectedArea.ofString "0,0 1x1x" = Except.ok "0,0 1x1x" := by
  constructor
  · decide
  · rfl

/-- Claim C4 as amended: constructing an area selection succeeds exactly
for the strings that begin with a `<int>,<int> <int>x<int>` match (every
fully matching string in particular), and fails with the invalid-format
error exactly for the strings with no such matching start. -/
theorem C4_area_format (s : String) :
    (SelectedArea.ofString s = Except.ok s ↔ pyMatchSelectedArea s = true)
    ∧ (SelectedArea.ofString s = Except.error PyError.valueError ↔
        pyMatchSelectedArea s = false)
    ∧ (fullyMatchesSelectedArea s = true → SelectedArea.ofString s = Except.ok s) := by
  refine ⟨?_, ?_, ?_⟩
  · cases h : pyMatchSelectedArea s <;> simp [SelectedArea.ofString, h]
  · cases h : pyMatchSelectedArea s <;> simp [SelectedArea.ofString, h]
  · intro hf
    simp [SelectedArea.ofString, fullyMatches_imp_pyMatch s hf]

/-- Witness for C4 at a fully matching string. -/
theorem C4_area_format_witness :
    fullyMatchesSelectedArea "10,10 40x40" = true
    ∧ SelectedArea.ofString "10,10 40x40" = Except.ok "10,10 40x40" :=
  ⟨by decide, (C4_area_format "10,10 40x40").2.2 (by decide)⟩

/-- Claim C8: a countdown started with five seconds delivers exactly the
five ticks 4, 3, 2, 1, 0 in that order and fires the completion callback
exactly once, after the final tick. -/
theorem C8_countdown_five :
    schedulerRun 5 = [TickEvent.tick 4, TickEvent.tick 3, TickEvent.tick 2,
      TickEvent.tick 1, TickEvent.tick 0, TickEvent.complete]
    ∧ (schedulerRun 5).count TickEvent.complete = 1 := by
  constructor <;> decide

/-- Claim C2: after any sequence of selection operations (area, screen,
cancelled or not) at most one of the area and the screen selection is set,
in both the application and the groupbox layer; selecting an area always
clears the screen selection, and a whole-screen operation either clears
the area selection or leaves the state entirely untouched (the cancelled
case). -/
theorem C2_mutual_exclusion (dst : String) (ops : List SelOp) :
    selExclusive (ops.foldl (fun s op => op.applyApp s) (initState dst))
    ∧ gbExclusive (ops.foldl (fun g op => op.applyGb g) GbState.initial)
    ∧ (∀ p s, (SelOp.applyApp (SelOp.area p) s).selected_screen = none)
    ∧ (∀ p g, (SelOp.applyGb (SelOp.area p) g).selected_screen = none)
    ∧ (∀ scrs i s, (SelOp.applyApp (SelOp.screen scrs i) s).selected_area = none
        ∨ SelOp.applyApp (SelOp.screen scrs i) s = s)
    ∧ (∀ scrs i g, (SelOp.applyGb (SelOp.screen scrs i) g).selected_area = none
        ∨ SelOp.applyGb (SelOp.screen scrs i) g = g) := by
  refine ⟨foldApp_exclusive ops _ (Or.inl rfl), foldGb_exclusive ops _ (Or.inl rfl),
    fun p s => rfl, fun p g => rfl, ?_, ?_⟩
  · intro scrs i s
    show (btn_onclick_select_whole_screen scrs i s).selected_area = none
       ∨ btn_onclick_select_whole_screen scrs i s = s
    unfold btn_onclick_select_whole_screen
    split
    · split
      · right; rfl
      · cases hp : pyIndex scrs i with
        | none => simp [hp]
        | some scr => simp [hp]
    · left; rfl
  · intro scrs i g
    show (gb_btn_onclick_select_whole_screen scrs i g).selected_area = none
       ∨ gb_btn_onclick_select_whole_screen scrs i g = g
    unfold gb_btn_onclick_select_whole_screen
    split
    · split
      · right; rfl
      · cases hp : pyIndex scrs i with
        | none => simp [hp]
        | some scr => simp [hp]
    · left; rfl

/-- Recognizer for the overwrite-confirmation effect. -/
def isAskOverride : Effect → Bool
  | Effect.askOverride _ => true
  | _ => false

/-- Prepending effects concatenates the traces, on both outcomes. -/
theorem handlerEffects_prepend (pre : List Effect) (r : HandlerResult) :
    handlerEffects (prependEffects pre r) = pre ++ handlerEffects r := by
  cases r with
  | ok p => cases p; rfl
  | error p => obtain ⟨e, s, effs⟩ := p; rfl

/-- A successful `start_recording` with a destination emits exactly the
parent-directory creation for that destination. -/
theorem start_recording_ok_effects (cwd dst : String) (audio : Bool)
    (a scr : Option String) (effs : List Effect) (argv : List String)
    (h : start_recording cwd (some dst) audio a scr = Except.ok (effs, argv)) :
    effs = [Effect.mkdirParents dst] := by
  unfold start_recording at h
  split at h
  · exact absurd h (by simp)
  · simp only [Except.ok.injEq, Prod.mk.injEq] at h
    exact h.1.symm

/-- The continuation after the overwrite check never asks for overwrite
confirmation again. -/
theorem startAfterConfirm_no_ask (cwd : String) (s : AppState) :
    (handlerEffects (startAfterConfirm cwd s)).all (fun e => !isAskOverride e) = true := by
  unfold startAfterConfirm
  split
  · simp [handlerEffects, isAskOverride]
  · cases hsr : start_recording cwd (some s.file_dst) s.checkbox_use_audio
      s.selected_area s.selected_screen with
    | error e =>
      simp only [hsr, handlerEffects]
      cases hws : s.is_whole_screen_selected <;> simp [isAskOverride]
    | ok pr =>
      obtain ⟨mkEffs, argv⟩ := pr
      have hmk := start_recording_ok_effects cwd s.file_dst s.checkbox_use_audio
        s.selected_area s.selected_screen mkEffs argv hsr
      simp only [hsr, handlerEffects, hmk]
      cases hws : s.is_whole_screen_selected <;> simp [isAskOverride]

/-- Claim C3: on every start attempt with an existing destination the
overwrite confirmation is requested exactly once, before any other
start-side effect; when it is declined the handler stops with only the
status label reset: no process is spawned and the selection, process and
destination fields are unchanged. -/
theorem C3_overwrite_confirmation (cwd : String) (s : AppState) (confirm : Bool) :
    (handlerEffects (btn_onclick_start_recording true confirm cwd s)).head?
      = some (Effect.askOverride s.file_dst)
    ∧ ((handlerEffects (btn_onclick_start_recording true confirm cwd s)).filter
        isAskOverride).length = 1
    ∧ (confirm = false →
        btn_onclick_start_recording true confirm cwd s =
          Except.ok ({ s with lbl_is_recording := "Not recording" },
            [Effect.askOverride s.file_dst])) := by
  cases confirm with
  | false =>
    refine ⟨rfl, rfl, fun _ => rfl⟩
  | true =>
    have hall := startAfterConfirm_no_ask cwd s
    have hnil : (handlerEffects (startAfterConfirm cwd s)).filter isAskOverride = [] := by
      rw [List.filter_eq_nil_iff]
      intro e he
      have := (List.all_eq_true.mp hall) e he
      simpa using this
    have heff : handlerEffects (btn_onclick_start_recording true true cwd s)
        = Effect.askOverride s.file_dst :: handlerEffects (startAfterConfirm cwd s) := by
      show handlerEffects (prependEffects [Effect.askOverride s.file_dst]
        (startAfterConfirm cwd s)) = _
      rw [handlerEffects_prepend]
      rfl
    refine ⟨?_, ?_, fun hc => by cases hc⟩
    · rw [heff]; rfl
    · rw [heff]
      simp [List.filter, isAskOverride, hnil]

/-- Witness for C3: a declined overwrite on the freshly initialised state
asks once and changes nothing but the status label. -/
theorem C3_overwrite_confirmation_witness :
    btn_onclick_start_recording true false "/" (initState "/tmp/out.mp4") =
      Except.ok ({ initState "/tmp/out.mp4" with lbl_is_recording := "Not recording" },
        [Effect.askOverride "/tmp/out.mp4"]) :=
  (C3_overwrite_confirmation "/" (initState "/tmp/out.mp4") false).2.2 rfl

/-- Claim C5: building a configuration fails with the no-target popup iff
neither selection field is set, regardless of the destination and audio
parameters (the only others `create_config` reads); with an area selected
the returned configuration carries it, else a selected screen is carried. -/
theorem C5_no_target (area screen : Option String) (dest : String) (audio : Bool)
    (ha : area ≠ some "") (hs : screen ≠ some "") :
    ((create_config area screen dest audio).1 = none ↔ (area = none ∧ screen = none))
    ∧ (∀ a, area = some a → (create_config area screen dest audio).1 =
        some { selection := a, file_dest := dest, include_audio := audio })
    ∧ (∀ n, area = none → screen = some n → (create_config area screen dest audio).1 =
        some { selection := n, file_dest := dest, include_audio := audio })
    ∧ (area = none → screen = none →
        create_config area screen dest audio = (none, [Effect.showNoSelectionError])) := by
  rcases area with _ | a <;> rcases screen with _ | n
  · simp [create_config, truthyStr]
  · have hn : n ≠ "" := fun h => hs (by rw [h])
    simp [create_config, truthyStr, hn]
  · have ha2 : a ≠ "" := fun h => ha (by rw [h])
    simp [create_config, truthyStr, ha2]
  · have ha2 : a ≠ "" := fun h => ha (by rw [h])
    have hn : n ≠ "" := fun h => hs (by rw [h])
    simp [create_config, truthyStr, ha2, hn]

/-- Witness for C5: with an area selected a configuration is produced;
with nothing selected the no-target popup is the only output. -/
theorem C5_no_target_witness :
    (create_config (some "10,10 40x40") none "/tmp/o.mp4" true).1 =
      some { selection := "10,10 40x40", file_dest := "/tmp/o.mp4", include_audio := true }
    ∧ create_config none none "/tmp/o.mp4" true =
      (none, [Effect.showNoSelectionError]) :=
  ⟨(C5_no_target (some "10,10 40x40") none "/tmp/o.mp4" true (by decide) (by decide)).2.1
      "10,10 40x40" rfl,
    (C5_no_target none none "/tmp/o.mp4" true (by decide) (by decide)).2.2.2 rfl rfl⟩

/-- Claim C6 counterexample: the claim says a stop request with no
recorder process is a no-op raising no error, but on the freshly
initialised state the handler dereferences the absent process object and
raises `AttributeError`. -/
theorem C6_counterexample :
    btn_onclick_stop_recording (initState "/tmp/out.mp4") =
      Except.error (PyError.attributeError, initState "/tmp/out.mp4", []) := by
  rfl

/-- Claim C6 as amended: invoking the stop operation while no recorder
process handle exists sends no signal to any process and leaves the
selection, destination and process fields unchanged, but it is not a
no-op: after flipping the button states the handler raises
`AttributeError` on the missing handle (the UI prevents this path by
keeping the stop button disabled while idle). -/
theorem C6_stop_without_process (s : AppState) (h : s.recorder_proc = none) :
    btn_onclick_stop_recording s =
      Except.error (PyError.attributeError,
        { s with btn_stop_enabled := false, other_btns_enabled := true }, []) := by
  simp [btn_onclick_stop_recording, h]

/-- Witness for C6 on the freshly initialised state. -/
theorem C6_stop_without_process_witness :
    btn_onclick_stop_recording (initState "/x.mp4") =
      Except.error (PyError.attributeError,
        { initState "/x.mp4" with btn_stop_enabled := false, other_btns_enabled := true },
        []) :=
  C6_stop_without_process (initState "/x.mp4") rfl

/-- Claim C9: with exactly one reported output, the whole-screen handler
leaves both selection fields unset while switching the whole-screen
indicator on; a following start request (destination absent, or present
with overwrite confirmed) emits the no-selection error and spawns
nothing. -/
theorem C9_single_output (name cwd : String) (idx : Int) (confirm : Bool)
    (s : AppState) (h : s.selected_screen = none) :
    (btn_onclick_select_whole_screen [name] idx s).selected_area = none
    ∧ (btn_onclick_select_whole_screen [name] idx s).selected_screen = none
    ∧ (btn_onclick_select_whole_screen [name] idx s).is_whole_screen_selected = true
    ∧ btn_onclick_start_recording false confirm cwd
        (btn_onclick_select_whole_screen [name] idx s)
        = Except.ok (btn_onclick_select_whole_screen [name] idx s,
            [Effect.showNoSelectionError])
    ∧ btn_onclick_start_recording true true cwd
        (btn_onclick_select_whole_screen [name] idx s)
        = Except.ok (btn_onclick_select_whole_screen [name] idx s,
            [Effect.askOverride s.file_dst, Effect.showNoSelectionError]) := by
  simp [btn_onclick_select_whole_screen, btn_onclick_start_recording,
    startAfterConfirm, prependEffects, h]

/-- Witness for C9 on the freshly initialised state with output eDP-1. -/
theorem C9_single_output_witness :
    (btn_onclick_select_whole_screen ["eDP-1"] 0 (initState "/tmp/out.mp4")).selected_area = none
    ∧ (btn_onclick_select_whole_screen ["eDP-1"] 0 (initState "/tmp/out.mp4")).selected_screen = none
    ∧ (btn_onclick_select_whole_screen ["eDP-1"] 0 (initState "/tmp/out.mp4")).is_whole_screen_selected = true
    ∧ btn_onclick_start_recording false true "/"
        (btn_onclick_select_whole_screen ["eDP-1"] 0 (initState "/tmp/out.mp4"))
        = Except.ok (btn_onclick_select_whole_screen ["eDP-1"] 0 (initState "/tmp/out.mp4"),
            [Effect.showNoSelectionError])
    ∧ btn_onclick_start_recording true true "/"
        (btn_onclick_select_whole_screen ["eDP-1"] 0 (initState "/tmp/out.mp4"))
        = Except.ok (btn_onclick_select_whole_screen ["eDP-1"] 0 (initState "/tmp/out.mp4"),
            [Effect.askOverride "/tmp/out.mp4", Effect.showNoSelectionError]) :=
  C9_single_output "eDP-1" "/" 0 true (initState "/tmp/out.mp4") rfl

/-- Claim C10: a cancelled area picker (no geometry returned) keeps the
previously selected area but still clears any screen selection, in both
the application handler and the groupbox handler; with no previous area
the state is left with no target at all. -/
theorem C10_cancel_keeps_area (s : AppState) (g : GbState) :
    (btn_onclick_select_area none s).selected_area = s.selected_area
    ∧ (btn_onclick_select_area none s).selected_screen = none
    ∧ (gb_btn_onclick_select_area none g).selected_area = g.selected_area
    ∧ (gb_btn_onclick_select_area none g).selected_screen = none := by
  refine ⟨?_, rfl, ?_, rfl⟩ <;>
    simp [btn_onclick_select_area, gb_btn_onclick_select_area, pyOr, truthyStr]

/-- Claim C7 is a code bug: the per-field fallback handlers only catch
`ValueError`, but `configparser` interpolation errors are not
`ValueError`s.  A defaults file whose delay is `5%` aborts the whole load
with an uncaught `InterpolationSyntaxError` instead of falling back to
delay 0; a `%(delay)s` reference makes the flags field depend on the delay
field; by contrast the `ValueError`-style malformed fields the handlers do
catch (a bad boolean, a negative delay) fall back per field exactly as the
claim says. -/
theorem C7_interpolation_aborts_load :
    ConfigFile.parse [("delay", "5%")] (fun _ => false) (fun d => d)
      = Except.error InterpError.syntaxError
    ∧ ConfigFile.parse [("flags", "%(delay)s -x"), ("delay", "7")]
        (fun _ => false) (fun d => d)
      = Except.ok { flags := "7 -x", include_audio := false, delay := 7, file_dest := none }
    ∧ ConfigFile.parse [("include_audio", "maybe"), ("delay", "-3"), ("flags", "-r 30")]
        (fun _ => false) (fun d => d)
      = Except.ok { flags := "-r 30", include_audio := false, delay := 0, file_dest := none } := by
  refine ⟨?_, ?_, ?_⟩ <;>
    simp [ConfigFile.parse, cpGet, rawGet, interpolateValue, interpGo,
      Except.map, Except.bind, bind, pure, Except.pure, pyInt, pyUnsignedInt,
      pyDigitsRest, pyBooleanState, pyLower, pyLowerChar]
